import Mathlib

/-!
Shallow embedding of the core of `minecraft-watcher`
(`cmd/minecraft-watcher/main.go`): the resilient-connect retry loop
(`connectWithRetry`), the JSON-RPC request/response layer (`sendJSONRPC`,
`getPlayers`, `shutdownServer`), configuration loading (`loadConfig` and the
`getEnv*` helpers), and the polling/decision loop (`monitorPlayers`).

Conventions of the embedding:
- Instants and durations are natural numbers of nanoseconds, mirroring Go's
  `time.Duration` (an integer nanosecond count).  `time.Since` with Go's
  monotonic clock is non-negative, so `Nat` suffices.  `int(d.Minutes())`
  truncates a non-negative duration to whole minutes, i.e. division by
  `nsPerMin`.
- Go `error` values produced by this program are either `fmt.Errorf` without
  `%w` (a bare error string) or `fmt.Errorf` with `%w` (a wrapping error that
  retains its cause and is unwrappable with `errors.Unwrap`).  The inductive
  `GoError` mirrors exactly these two runtime shapes.  The exact text of
  errors originating inside `encoding/json` is abbreviated (no claim depends
  on those strings).
- Network and scheduler nondeterminism is scripted: each call receives the
  outcome the environment would produce (write success/failure, the next
  message read, the result of a poll), and the functions compute exactly what
  the Go code does with those outcomes.
-/

/-- Go error values as built by this program: `errorString` is
`fmt.Errorf`/`errors.New` without `%w`; `wrapError` is `fmt.Errorf` with
`%w`, which keeps its cause available to `errors.Unwrap`. -/
inductive GoError where
  | errorString (msg : String)
  | wrapError (msg : String) (cause : GoError)
  deriving DecidableEq, Repr

/-- The `Error()` string of a Go error value. -/
def GoError.message : GoError → String
  | .errorString m => m
  | .wrapError m _ => m

/-- Whether `errors.Unwrap` would return a non-nil cause: true exactly for
errors built with `%w`. -/
def GoError.hasCause : GoError → Bool
  | .errorString _ => false
  | .wrapError _ _ => true

/-- JSON values.  Numbers are modelled as integers; no claim depends on
numeric fidelity. -/
inductive Json where
  | null
  | bool (b : Bool)
  | num (n : Int)
  | str (s : String)
  | arr (elems : List Json)
  | obj (fields : List (String × Json))

/-- A participant record, from `type Player struct` in main.go. -/
structure Player where
  id : String
  name : String
  deriving DecidableEq, Repr

/-- A JSON-RPC protocol-level error object, from `type JSONRPCError struct`. -/
structure JSONRPCError where
  code : Int
  message : String
  data : String
  deriving DecidableEq, Repr

/-- A JSON-RPC request, from `type JSONRPCRequest struct`. -/
structure JSONRPCRequest where
  jsonrpc : String
  method : String
  id : Int
  params : Option Json

/-- A JSON-RPC response, from `type JSONRPCResponse struct`.  `result` is the
raw JSON of the `result` field (`none` when the field is absent, mirroring a
nil `json.RawMessage`). -/
structure JSONRPCResponse where
  jsonrpc : String
  id : Int
  result : Option Json
  error : Option JSONRPCError

/-- The scripted outcomes of the two socket operations one `sendJSONRPC`
call performs: `conn.WriteJSON` (`none` = success) and `conn.ReadJSON`
(either an I/O failure or the next message on the connection). -/
structure WireScript where
  writeOutcome : Option GoError
  readOutcome : Except GoError JSONRPCResponse

/-- Embeds `sendJSONRPC` (main.go:209-234).  Takes the current value of the
global `requestID` counter, returns the incremented counter, the request
message written, and the call's outcome.  The code increments `requestID`,
writes one request bearing the new id, reads one message, translates a
protocol-level `error` object into an error value, and otherwise returns the
message it read — it never compares `resp.ID` with the request id. -/
def sendJSONRPC (requestID : Int) (method : String) (params : Option Json)
    (w : WireScript) :
    Int × JSONRPCRequest × Except GoError JSONRPCResponse :=
  let id := requestID + 1
  let req : JSONRPCRequest :=
    { jsonrpc := "2.0", method := method, id := id, params := params }
  match w.writeOutcome with
  | some e =>
      (id, req, .error (.wrapError ("failed to send request: " ++ e.message) e))
  | none =>
      match w.readOutcome with
      | .error e =>
          (id, req,
            .error (.wrapError ("failed to read response: " ++ e.message) e))
      | .ok resp =>
          match resp.error with
          | some er =>
              (id, req,
                .error (.errorString ("JSON-RPC error " ++ toString er.code
                  ++ ": " ++ er.message ++ " (data: " ++ er.data ++ ")")))
          | none => (id, req, .ok resp)

/-- Decodes one JSON value into a string-typed struct field, as
`encoding/json` does: a JSON string sets the field, JSON `null` leaves the
current value unchanged without error, and any other value is a type
error. -/
def decodeStringField (current : String) : Json → Except GoError String
  | .str s => .ok s
  | .null => .ok current
  | _ => .error (.errorString "json: cannot unmarshal value into string field")

/-- Decodes the fields of one JSON object into a `Player`, as
`encoding/json` does for `struct` targets: keys `id` and `name` set the
corresponding fields (later duplicates overwrite earlier ones), unknown keys
are ignored, missing keys leave the zero value `""`. -/
def decodePlayerFields (acc : Player) :
    List (String × Json) → Except GoError Player
  | [] => .ok acc
  | (k, v) :: rest =>
      if k = "id" then
        match decodeStringField acc.id v with
        | .error e => .error e
        | .ok s => decodePlayerFields { acc with id := s } rest
      else if k = "name" then
        match decodeStringField acc.name v with
        | .error e => .error e
        | .ok s => decodePlayerFields { acc with name := s } rest
      else
        decodePlayerFields acc rest

/-- Decodes one JSON value into a `Player`, as `encoding/json` does: an
object is decoded field by field, JSON `null` leaves the zero value, and any
other shape is a type error. -/
def decodePlayer : Json → Except GoError Player
  | .obj fields => decodePlayerFields { id := "", name := "" } fields
  | .null => .ok { id := "", name := "" }
  | _ => .error (.errorString "json: cannot unmarshal value into Player")

/-- Decodes a list of JSON array elements into players, failing on the first
element that is not a player record. -/
def decodePlayerList : List Json → Except GoError (List Player)
  | [] => .ok []
  | x :: rest =>
      match decodePlayer x with
      | .error e => .error e
      | .ok p =>
          match decodePlayerList rest with
          | .error e => .error e
          | .ok ps => .ok (p :: ps)

/-- Embeds `json.Unmarshal(resp.Result, &players)` with target `[]Player`:
a nil `RawMessage` (absent `result` field) is a syntax error; JSON `null`
sets the slice to nil without error (documented `encoding/json` behaviour:
unmarshalling `null` into a slice yields nil and no error); a JSON array is
decoded element-wise; every other JSON shape is a type error. -/
def unmarshalPlayers : Option Json → Except GoError (List Player)
  | none => .error (.errorString "unexpected end of JSON input")
  | some .null => .ok []
  | some (.arr xs) => decodePlayerList xs
  | some _ =>
      .error (.errorString "json: cannot unmarshal value into Go value of type main.Player list")

/-- Embeds `getPlayers` (main.go:236-248): one `sendJSONRPC` call with
method `minecraft:players`, then `json.Unmarshal` of the raw `result` into
`[]Player`; an unmarshal failure is wrapped with `%w`. -/
def getPlayers (requestID : Int) (w : WireScript) :
    Int × Except GoError (List Player) :=
  let out := sendJSONRPC requestID "minecraft:players" none w
  match out.2.2 with
  | .error e => (out.1, .error e)
  | .ok resp =>
      match unmarshalPlayers resp.result with
      | .error e =>
          (out.1,
            .error (.wrapError ("failed to parse players result: " ++ e.message) e))
      | .ok ps => (out.1, .ok ps)

/-- The possible outcomes of the connect retry loop in the embedding.  The
`failed` and `cancelled` constructors exist so that "never returns an error"
and "returns a cancellation outcome" are statable; the embedded code never
produces either (see `connectWithRetry`).  `connecting` means the scripted
outcome list was exhausted with every attempt failing: the real loop is still
running (it has no exit other than a successful dial). -/
inductive ConnectOutcome where
  | connected (sleeps : List Nat) (attempt : Nat)
  | connecting (sleeps : List Nat)
  | cancelled
  | failed (e : GoError)
  deriving DecidableEq, Repr

/-- The recursive core of `connectWithRetry` (main.go:145-171): `backoff`
(in seconds) starts at 1 and `attempt` at 1; on a failed dial the loop sleeps
for the current `backoff`, then doubles it, capping at `maxBackoff = 30`, and
tries again; on a successful dial it returns at once.  `outcomes` scripts the
result of each successive `connectToServer` dial (`true` = success); the
returned `sleeps` lists the sleep durations actually performed, in order. -/
def connectLoop (backoff attempt : Nat) : List Bool → ConnectOutcome
  | [] => .connecting []
  | ok :: rest =>
      if ok then .connected [] attempt
      else
        match connectLoop (min (backoff * 2) 30) (attempt + 1) rest with
        | .connected sleeps a => .connected (backoff :: sleeps) a
        | .connecting sleeps => .connecting (backoff :: sleeps)
        | .cancelled => .cancelled
        | .failed e => .failed e

/-- Embeds `connectWithRetry` (main.go:145-171).  `cancelRaisedAt` records
the attempt number (if any) during whose retry sleep the process-wide
cancellation signal was raised.  The Go function receives no context —
`main` calls `connectWithRetry(cfg)` (main.go:133) without passing `ctx`,
and `time.Sleep` is not interruptible — so the parameter is ignored: the
loop's behaviour is determined by the dial outcomes alone. -/
def connectWithRetry (cancelRaisedAt : Option Nat) (outcomes : List Bool) :
    ConnectOutcome :=
  let _ := cancelRaisedAt
  connectLoop 1 1 outcomes

/-- Embeds `type Config struct` (main.go:21-30). -/
structure Config where
  host : String
  port : String
  secret : String
  tlsEnabled : Bool
  testMode : Bool
  idleTimeoutMinutes : Int
  minUptimeMinutes : Int
  pollIntervalSeconds : Int
  deriving DecidableEq, Repr

/-- The process environment: `os.Getenv` semantics, where an unset variable
reads as the empty string. -/
def Env : Type := String → String

/-- Embeds `getEnv` (main.go:80-85): the variable's value when non-empty,
otherwise the default. -/
def getEnvStr (env : Env) (key defaultValue : String) : String :=
  if env key ≠ "" then env key else defaultValue

/-- Embeds `strconv.ParseBool`: accepts exactly the twelve literal strings
below and rejects everything else. -/
def parseBool : String → Option Bool
  | "1" => some true
  | "t" => some true
  | "T" => some true
  | "TRUE" => some true
  | "true" => some true
  | "True" => some true
  | "0" => some false
  | "f" => some false
  | "F" => some false
  | "FALSE" => some false
  | "false" => some false
  | "False" => some false
  | _ => none

/-- Converts a digit run to its value; `none` unless the string is one or
more decimal digits. -/
def digitsValue : List Char → Option Nat
  | [] => none
  | [c] => if c.isDigit then some (c.toNat - '0'.toNat) else none
  | c :: rest =>
      if c.isDigit then
        match digitsValue rest with
        | some n => some ((c.toNat - '0'.toNat) * 10 ^ rest.length + n)
        | none => none
      else none

/-- Embeds `strconv.Atoi`: an optional sign followed by digits, failing
with a range error when the value does not fit a 64-bit `int` (Go's `int`
on the targeted platforms), so every successfully parsed value lies in
[-2^63, 2^63). -/
def atoi (s : String) : Option Int :=
  match s.toList with
  | '+' :: rest =>
      (digitsValue rest).bind (fun n =>
        if n ≤ 9223372036854775807 then some (Int.ofNat n) else none)
  | '-' :: rest =>
      (digitsValue rest).bind (fun n =>
        if n ≤ 9223372036854775808 then some (-(n : Int)) else none)
  | l =>
      (digitsValue l).bind (fun n =>
        if n ≤ 9223372036854775807 then some (Int.ofNat n) else none)

/-- Embeds `getEnvBool` (main.go:87-94): parse the value when non-empty,
falling back to the default when unset or unparsable. -/
def getEnvBool (env : Env) (key : String) (defaultValue : Bool) : Bool :=
  if env key ≠ "" then (parseBool (env key)).getD defaultValue
  else defaultValue

/-- Embeds `getEnvInt` (main.go:96-103). -/
def getEnvInt (env : Env) (key : String) (defaultValue : Int) : Int :=
  if env key ≠ "" then (atoi (env key)).getD defaultValue
  else defaultValue

/-- Embeds `loadConfig` (main.go:61-78): reads every option, then fails
exactly when the mandatory secret is empty (`os.Getenv` returns `""` both
for an unset and for an empty variable). -/
def loadConfig (env : Env) : Except GoError Config :=
  let cfg : Config :=
    { host := getEnvStr env "MINECRAFT_MGMT_HOST" "localhost"
      port := getEnvStr env "MINECRAFT_MGMT_PORT" "25566"
      secret := env "MINECRAFT_MGMT_SECRET"
      tlsEnabled := getEnvBool env "MINECRAFT_MGMT_TLS_ENABLED" true
      testMode := getEnvBool env "TEST_MODE" false
      idleTimeoutMinutes := getEnvInt env "IDLE_TIMEOUT_MINUTES" 10
      minUptimeMinutes := getEnvInt env "MIN_UPTIME_MINUTES" 30
      pollIntervalSeconds := getEnvInt env "POLL_INTERVAL_SECONDS" 30 }
  if cfg.secret = "" then .error (.errorString "MINECRAFT_MGMT_SECRET is required")
  else .ok cfg

/-- Nanoseconds per minute: `time.Minute` as a `time.Duration` count. -/
def nsPerMin : Nat := 60000000000

/-- Whole minutes of a non-negative duration given in nanoseconds:
`int(d.Minutes())` truncates toward zero. -/
def durationMinutes (d : Nat) : Nat := d / nsPerMin

/-- The shutdown predicate evaluated each tick (main.go:303-309):
`uptimeMinutes >= cfg.MinUptimeMinutes && idleMinutes >= cfg.IdleTimeoutMinutes`,
where both elapsed durations are truncated to whole minutes and the
thresholds are Go `int`s (hence `Int` here). -/
def shutdownDue (cfg : Config) (uptime idle : Nat) : Bool :=
  decide ((durationMinutes uptime : Int) ≥ cfg.minUptimeMinutes)
    && decide ((durationMinutes idle : Int) ≥ cfg.idleTimeoutMinutes)

/-- The mutable state of `monitorPlayers` (main.go:266-325) plus run-level
event counters used to state the temporal claims.  `startTime` and
`lastPlayerTime` are the Clock Pair; `exited` records `os.Exit(0)`;
`gatewayInvocations` counts calls of `shutdownServer` (the Terminal Action
Gateway), `gatewaySuccesses` those returning nil, and `stopCommandsSent`
the live `minecraft:server/stop` RPCs issued (the destructive action —
zero in test mode, where `shutdownServer` only logs). -/
structure WatchState where
  startTime : Nat
  lastPlayerTime : Nat
  gatewayInvocations : Nat
  gatewaySuccesses : Nat
  stopCommandsSent : Nat
  exited : Bool
  deriving DecidableEq, Repr

/-- The initial state of `monitorPlayers`: both clocks start at the current
instant (`startTime := time.Now(); lastPlayerTime := time.Now()`). -/
def initWatchState (t0 : Nat) : WatchState :=
  { startTime := t0, lastPlayerTime := t0, gatewayInvocations := 0
    gatewaySuccesses := 0, stopCommandsSent := 0, exited := false }

instance {ε α : Type} [DecidableEq ε] [DecidableEq α] :
    DecidableEq (Except ε α) := fun a b =>
  match a, b with
  | .error e, .error f =>
      if h : e = f then .isTrue (by subst h; rfl)
      else .isFalse (by intro hh; injection hh; contradiction)
  | .error _, .ok _ => .isFalse (fun hh => Except.noConfusion hh)
  | .ok _, .error _ => .isFalse (fun hh => Except.noConfusion hh)
  | .ok x, .ok y =>
      if h : x = y then .isTrue (by subst h; rfl)
      else .isFalse (by intro hh; injection hh; contradiction)

/-- One scripted tick of the polling loop: the instant the tick fires, the
outcome of the `getPlayers` poll, and the outcome the `minecraft:server/stop`
RPC would have if `shutdownServer` were invoked live on this tick. -/
structure TickInput where
  now : Nat
  poll : Except GoError (List Player)
  stopOutcome : Except GoError Unit
  deriving DecidableEq, Repr

/-- Embeds `shutdownServer` (main.go:250-264), the Terminal Action Gateway:
in test mode it only logs the action it would have taken and returns nil,
sending nothing; live, it sends the `minecraft:server/stop` RPC (its scripted
outcome is `stopOutcome`) and wraps any failure with `%w`.  Returns the
call's result together with whether the destructive stop command was sent. -/
def shutdownServer (testMode : Bool) (stopOutcome : Except GoError Unit) :
    Except GoError Unit × Bool :=
  if testMode then (.ok (), false)
  else
    match stopOutcome with
    | .error e =>
        (.error (.wrapError ("failed to shutdown server: " ++ e.message) e), true)
    | .ok _ => (.ok (), true)

/-- The clock update of one tick (main.go:286-297): a non-empty player list
advances `lastPlayerTime` to the current instant, an empty one leaves it
alone. -/
def tickClock (s : WatchState) (t : TickInput) (players : List Player) :
    WatchState :=
  if players.length > 0 then { s with lastPlayerTime := t.now } else s

/-- The effect of invoking `shutdownServer` on a tick whose predicate holds
(main.go:313-321): a gateway failure logs and `continue`s; a success in live
mode is followed by `os.Exit(0)`, in test mode by nothing. -/
def gatewayStep (cfg : Config) (s : WatchState) (t : TickInput) : WatchState :=
  match shutdownServer cfg.testMode t.stopOutcome with
  | (.error _, sent) =>
      { s with gatewayInvocations := s.gatewayInvocations + 1
               stopCommandsSent := s.stopCommandsSent + (if sent then 1 else 0) }
  | (.ok _, sent) =>
      { s with gatewayInvocations := s.gatewayInvocations + 1
               gatewaySuccesses := s.gatewaySuccesses + 1
               stopCommandsSent := s.stopCommandsSent + (if sent then 1 else 0)
               exited := if cfg.testMode then s.exited else true }

/-- Embeds the body of one `ticker.C` iteration of `monitorPlayers`
(main.go:279-322).  A failed poll logs and `continue`s, changing nothing.
Otherwise the clock update runs, the elapsed times are truncated to whole
minutes, and the shutdown predicate is evaluated; when it holds the Terminal
Action Gateway is invoked. -/
def tickStep (cfg : Config) (s : WatchState) (t : TickInput) : WatchState :=
  match t.poll with
  | .error _ => s
  | .ok players =>
      let s1 := tickClock s t players
      if shutdownDue cfg (t.now - s1.startTime) (t.now - s1.lastPlayerTime) then
        gatewayStep cfg s1 t
      else s1

/-- Runs the polling loop over a scripted sequence of ticks.  `os.Exit(0)`
ends the process, so once `exited` is set no further tick is processed. -/
def runTicks (cfg : Config) (s : WatchState) : List TickInput → WatchState
  | [] => s
  | t :: rest => if s.exited then s else runTicks cfg (tickStep cfg s t) rest

/-- Two's-complement wraparound to a signed 64-bit value, as Go's `int64`
arithmetic overflows. -/
def wrapInt64 (x : Int) : Int :=
  (x + 9223372036854775808) % 18446744073709551616 - 9223372036854775808

/-- Whether `time.NewTicker(time.Duration(pollIntervalSeconds) * time.Second)`
(main.go:269) panics: `time.Duration` is an `int64` nanosecond count, the
multiplication by `time.Second` wraps on overflow, and `NewTicker` panics
exactly when the resulting duration is non-positive. -/
def pollTickerPanics (pollIntervalSeconds : Int) : Bool :=
  decide (wrapInt64 (pollIntervalSeconds * 1000000000) ≤ 0)

/-- The observable outcome of one whole process run: whether `log.Fatalf`
killed the process over its configuration, whether `monitorPlayers` panicked
creating its ticker, how many dial attempts `connectWithRetry` made before
any fatal exit, and the final monitor state when the run got that far. -/
structure RunResult where
  fatalConfigExit : Bool
  fatalMessage : String
  connectAttempts : Nat
  tickerPanicked : Bool
  finalState : Option WatchState
  deriving DecidableEq, Repr

/-- Embeds `main` (main.go:105-143) together with the entry of
`monitorPlayers` (main.go:266-272): load the configuration and die fatally
on its error before anything else; otherwise dial with retry (scripted by
`dialOutcomes`); once connected, `monitorPlayers` first creates its ticker —
`time.NewTicker` panics when the configured poll interval converts to a
non-positive `int64` duration — and only then runs the polling loop from
instant `t0` over the scripted ticks.  `log.Fatalf` and the `NewTicker`
panic are the only crashes in the program; `os.Exit(0)` after a live
shutdown is a graceful exit recorded in `WatchState.exited`. -/
def mainRun (env : Env) (dialOutcomes : List Bool) (t0 : Nat)
    (ticks : List TickInput) : RunResult :=
  match loadConfig env with
  | .error e =>
      { fatalConfigExit := true, fatalMessage := e.message
        connectAttempts := 0, tickerPanicked := false, finalState := none }
  | .ok cfg =>
      match connectWithRetry none dialOutcomes with
      | .connected _ attempt =>
          if pollTickerPanics cfg.pollIntervalSeconds then
            { fatalConfigExit := false, fatalMessage := ""
              connectAttempts := attempt, tickerPanicked := true
              finalState := none }
          else
            { fatalConfigExit := false, fatalMessage := ""
              connectAttempts := attempt, tickerPanicked := false
              finalState := some (runTicks cfg (initWatchState t0) ticks) }
      | _ =>
          { fatalConfigExit := false, fatalMessage := ""
            connectAttempts := dialOutcomes.length, tickerPanicked := false
            finalState := none }

/-- Whether a JSON value is an array. -/
def Json.isArr : Json → Bool
  | .arr _ => true
  | _ => false

/-- The JSON wire form of one participant record. -/
def playerJson (p : Player) : Json :=
  .obj [("id", .str p.id), ("name", .str p.name)]

/-! Concrete fixtures used by witnesses and counterexamples. -/

/-- A live-mode configuration with the repository's default thresholds. -/
def cfgLive : Config :=
  { host := "localhost", port := "25566", secret := "s", tlsEnabled := true
    testMode := false, idleTimeoutMinutes := 10, minUptimeMinutes := 30
    pollIntervalSeconds := 30 }

/-- A dry-run configuration with zero thresholds — the environment the
repository's own system test uses (`TEST_MODE=true`, `MIN_UPTIME_MINUTES=0`,
`IDLE_TIMEOUT_MINUTES=0`). -/
def cfgDry : Config :=
  { cfgLive with testMode := true, idleTimeoutMinutes := 0, minUptimeMinutes := 0 }

/-- A tick at the given instant whose poll returned no players. -/
def tickEmptyAt (t : Nat) : TickInput :=
  { now := t, poll := .ok [], stopOutcome := .ok () }

/-- A tick at the given instant whose poll failed with a transport fault. -/
def tickFaultAt (t : Nat) : TickInput :=
  { now := t, poll := .error (.errorString "read failed"), stopOutcome := .ok () }

/-- A tick at the given instant whose poll observed one participant. -/
def tickPlayerAt (t : Nat) : TickInput :=
  { now := t, poll := .ok [{ id := "853c", name := "jeb" }], stopOutcome := .ok () }

/-- A well-formed success response whose identifier matches no request the
embedding has issued. -/
def respWrongId : JSONRPCResponse :=
  { jsonrpc := "2.0", id := 999, result := some (.arr []), error := none }

/-- A success response whose `result` field is JSON `null`. -/
def respNullResult : JSONRPCResponse :=
  { jsonrpc := "2.0", id := 1, result := some .null, error := none }

/-- A success response with identifier 41 and an empty-array result. -/
def respId41 : JSONRPCResponse :=
  { jsonrpc := "2.0", id := 41, result := some (.arr []), error := none }

/-- A well-formed protocol error response. -/
def respProtocolError : JSONRPCResponse :=
  { jsonrpc := "2.0", id := 2, result := none
    error := some { code := -32601, message := "Method not found", data := "" } }

/-- An environment with no variables set. -/
def envEmpty : Env := fun _ => ""

/-- An environment that sets only the mandatory secret. -/
def envWithSecret : Env := fun k => if k = "MINECRAFT_MGMT_SECRET" then "s3cret" else ""

/-- An environment that provides the secret but sets the poll interval to
zero seconds. -/
def envSecretZeroPoll : Env := fun k =>
  if k = "MINECRAFT_MGMT_SECRET" then "s3cret"
  else if k = "POLL_INTERVAL_SECONDS" then "0"
  else ""

/-! Theorems.  First, step lemmas about the embedded loop body. -/

theorem tickStep_poll_error (cfg : Config) (s : WatchState) (t : TickInput)
    (e : GoError) (h : t.poll = .error e) : tickStep cfg s t = s := by
  unfold tickStep
  rw [h]

theorem tickStep_poll_ok (cfg : Config) (s : WatchState) (t : TickInput)
    (players : List Player) (h : t.poll = .ok players) :
    tickStep cfg s t =
      (if shutdownDue cfg (t.now - (tickClock s t players).startTime)
            (t.now - (tickClock s t players).lastPlayerTime) then
        gatewayStep cfg (tickClock s t players) t
      else tickClock s t players) := by
  unfold tickStep
  rw [h]

theorem tickClock_fields (s : WatchState) (t : TickInput) (players : List Player) :
    (tickClock s t players).startTime = s.startTime ∧
    (tickClock s t players).lastPlayerTime
      = (if players.length > 0 then t.now else s.lastPlayerTime) ∧
    (tickClock s t players).gatewayInvocations = s.gatewayInvocations ∧
    (tickClock s t players).gatewaySuccesses = s.gatewaySuccesses ∧
    (tickClock s t players).stopCommandsSent = s.stopCommandsSent ∧
    (tickClock s t players).exited = s.exited := by
  unfold tickClock
  split <;> simp

theorem gatewayStep_fields (cfg : Config) (s : WatchState) (t : TickInput) :
    (gatewayStep cfg s t).gatewayInvocations = s.gatewayInvocations + 1 ∧
    (gatewayStep cfg s t).startTime = s.startTime ∧
    (gatewayStep cfg s t).lastPlayerTime = s.lastPlayerTime := by
  unfold gatewayStep shutdownServer
  cases cfg.testMode <;> cases t.stopOutcome <;> simp

/-- C1: on every tick of the polling loop the shutdown predicate is the
strict conjunction of the two threshold checks over whole-minute-truncated
elapsed times: it is false whenever truncated uptime is below the minimum
uptime threshold (regardless of idle time), false whenever truncated idle
time is below the idle timeout threshold (regardless of uptime), true exactly
when both hold; it depends only on the whole-minute truncations of the two
durations; and the tick body invokes the Terminal Action Gateway exactly when
this predicate holds on the tick's clocks. -/
theorem shutdown_predicate_strict_conjunction (cfg : Config) (uptime idle : Nat) :
    (shutdownDue cfg uptime idle = true ↔
      ((durationMinutes uptime : Int) ≥ cfg.minUptimeMinutes ∧
        (durationMinutes idle : Int) ≥ cfg.idleTimeoutMinutes))
    ∧ ((durationMinutes uptime : Int) < cfg.minUptimeMinutes →
        shutdownDue cfg uptime idle = false)
    ∧ ((durationMinutes idle : Int) < cfg.idleTimeoutMinutes →
        shutdownDue cfg uptime idle = false)
    ∧ shutdownDue cfg uptime idle
        = shutdownDue cfg (durationMinutes uptime * nsPerMin)
            (durationMinutes idle * nsPerMin)
    ∧ (∀ (s : WatchState) (t : TickInput) (players : List Player),
        t.poll = .ok players →
        ((tickStep cfg s t).gatewayInvocations = s.gatewayInvocations + 1 ↔
          shutdownDue cfg (t.now - s.startTime)
            (t.now - (if players.length > 0 then t.now else s.lastPlayerTime))
            = true)) := by
  have hmin : ∀ d : Nat, durationMinutes (durationMinutes d * nsPerMin) = durationMinutes d := by
    intro d
    unfold durationMinutes
    exact Nat.mul_div_cancel _ (by norm_num [nsPerMin])
  refine ⟨?_, ?_, ?_, ?_, ?_⟩
  · simp [shutdownDue, decide_eq_true_iff]
  · intro h
    have h1 : ¬ ((durationMinutes uptime : Int) ≥ cfg.minUptimeMinutes) := by omega
    simp [shutdownDue, h1]
  · intro h
    have h1 : ¬ ((durationMinutes idle : Int) ≥ cfg.idleTimeoutMinutes) := by omega
    simp [shutdownDue, h1]
  · simp [shutdownDue, hmin]
  · intro s t players hpoll
    rw [tickStep_poll_ok cfg s t players hpoll]
    obtain ⟨hst, hlp, hinv, _, _, _⟩ := tickClock_fields s t players
    by_cases hdue : shutdownDue cfg (t.now - (tickClock s t players).startTime)
        (t.now - (tickClock s t players).lastPlayerTime) = true
    · rw [if_pos hdue]
      rw [hst, hlp] at hdue
      rw [(gatewayStep_fields cfg (tickClock s t players) t).1, hinv]
      exact iff_of_true rfl hdue
    · rw [if_neg hdue]
      rw [hst, hlp] at hdue
      constructor
      · intro h
        rw [hinv] at h
        omega
      · intro h
        exact absurd h hdue

/-- Witness for C1 at the spec's second scenario: uptime 65 seconds
truncates to 1 minute (meeting a 1-minute minimum-uptime threshold), but
idle 15 seconds truncates to 0 minutes, so the predicate is false. -/
theorem shutdown_predicate_strict_conjunction_witness :
    shutdownDue
      { cfgLive with minUptimeMinutes := 1, idleTimeoutMinutes := 1 }
      65000000000 15000000000 = false :=
  (shutdown_predicate_strict_conjunction
      { cfgLive with minUptimeMinutes := 1, idleTimeoutMinutes := 1 }
      65000000000 15000000000).2.2.1 (by decide)

theorem min_double_cap (b x : Nat) (hx : 1 ≤ x) :
    min (min (b * 2) 30 * x) 30 = min (b * 2 * x) 30 := by
  rcases Nat.le_total (b * 2) 30 with h | h
  · rw [Nat.min_eq_left h]
  · rw [Nat.min_eq_right h]
    have h30 : 30 ≤ 30 * x := Nat.le_mul_of_pos_right 30 hx
    have hbx : 30 * x ≤ b * 2 * x := Nat.mul_le_mul_right x h
    rw [Nat.min_eq_right h30, Nat.min_eq_right (le_trans h30 hbx)]

theorem connectLoop_cons_true (b a : Nat) (rest : List Bool) :
    connectLoop b a (true :: rest) = .connected [] a := by
  simp [connectLoop]

theorem connectLoop_cons_false (b a : Nat) (rest : List Bool) :
    connectLoop b a (false :: rest)
      = match connectLoop (min (b * 2) 30) (a + 1) rest with
        | .connected sleeps k => .connected (b :: sleeps) k
        | .connecting sleeps => .connecting (b :: sleeps)
        | .cancelled => .cancelled
        | .failed e => .failed e := by
  simp [connectLoop]

theorem connectLoop_replicate (n : Nat) :
    ∀ (b a : Nat), b ≤ 30 →
    connectLoop b a (List.replicate n false ++ [true])
      = .connected ((List.range n).map (fun i => min (b * 2 ^ i) 30)) (a + n) := by
  induction n with
  | zero =>
      intro b a _
      simp [connectLoop, List.range_zero]
  | succ n ih =>
      intro b a hb
      rw [List.replicate_succ, List.cons_append, connectLoop_cons_false,
        ih (min (b * 2) 30) (a + 1) (Nat.min_le_right _ _)]
      dsimp only
      rw [List.range_succ_eq_map, List.map_cons, List.map_map]
      simp only [ConnectOutcome.connected.injEq]
      refine ⟨?_, by omega⟩
      congr 1
      · rw [pow_zero, mul_one, Nat.min_eq_left hb]
      · apply List.map_congr_left
        intro i _
        show min (min (b * 2) 30 * 2 ^ i) 30 = min (b * 2 ^ (i + 1)) 30
        rw [min_double_cap b (2 ^ i) (Nat.one_le_pow i 2 (by norm_num))]
        congr 1
        rw [pow_succ]
        ring

theorem connectLoop_first_success :
    ∀ (outcomes : List Bool) (b a : Nat) (sleeps : List Nat) (k : Nat),
    connectLoop b a outcomes = .connected sleeps k →
    a ≤ k ∧ outcomes[k - a]? = some true ∧
      ∀ i, i < k - a → outcomes[i]? = some false := by
  intro outcomes
  induction outcomes with
  | nil =>
      intro b a sleeps k h
      simp [connectLoop] at h
  | cons o rest ih =>
      intro b a sleeps k h
      cases o with
      | true =>
          rw [connectLoop_cons_true] at h
          obtain ⟨hs, hk⟩ := ConnectOutcome.connected.inj h
          subst hk
          refine ⟨le_refl a, ?_, ?_⟩
          · simp
          · intro i hi
            omega
      | false =>
          rw [connectLoop_cons_false] at h
          cases heq : connectLoop (min (b * 2) 30) (a + 1) rest with
          | connected s' k' =>
              rw [heq] at h
              dsimp only at h
              obtain ⟨hs, hk⟩ := ConnectOutcome.connected.inj h
              subst hk
              obtain ⟨hak, htrue, hfalse⟩ := ih _ _ _ _ heq
              refine ⟨by omega, ?_, ?_⟩
              · have : k' - a = (k' - (a + 1)) + 1 := by omega
                rw [this, List.getElem?_cons_succ]
                exact htrue
              · intro i hi
                cases i with
                | zero => simp
                | succ j =>
                    rw [List.getElem?_cons_succ]
                    exact hfalse j (by omega)
          | connecting s' =>
              rw [heq] at h
              dsimp only at h
              exact absurd h (by simp)
          | cancelled =>
              rw [heq] at h
              dsimp only at h
              exact absurd h (by simp)
          | failed e =>
              rw [heq] at h
              dsimp only at h
              exact absurd h (by simp)

/-- C2: for every sequence of k-1 consecutive connection failures followed
by one success, the connector sleeps min(2^(k-1), 30) time-units after the
k-th failed attempt (the observed sleep sequence 1, 2, 4, 8, 16, 30, 30, …),
and it returns a connection only after the first successful attempt, never
before: the successful attempt number points at the first `true` dial
outcome, with every earlier outcome a failure. -/
theorem connect_backoff_sequence :
    (∀ n : Nat, connectWithRetry none (List.replicate n false ++ [true])
        = .connected ((List.range n).map (fun i => min (2 ^ i) 30)) (n + 1)) ∧
    (∀ (cancelRaisedAt : Option Nat) (outcomes : List Bool)
        (sleeps : List Nat) (k : Nat),
      connectWithRetry cancelRaisedAt outcomes = .connected sleeps k →
      1 ≤ k ∧ outcomes[k - 1]? = some true ∧
        ∀ i, i < k - 1 → outcomes[i]? = some false) := by
  constructor
  · intro n
    unfold connectWithRetry
    rw [connectLoop_replicate n 1 1 (by norm_num)]
    simp only [one_mul, ConnectOutcome.connected.injEq]
    exact ⟨trivial, by omega⟩
  · intro cancelRaisedAt outcomes sleeps k h
    exact connectLoop_first_success outcomes 1 1 sleeps k h

/-- Witness for C2: two refused dials then a success give sleeps of 1 then 2
seconds and a connection on attempt 3 — the spec's third scenario. -/
theorem connect_backoff_sequence_witness :
    connectWithRetry none (List.replicate 2 false ++ [true])
        = .connected ((List.range 2).map (fun i => min (2 ^ i) 30)) 3 ∧
    (1 ≤ 3 ∧ [false, false, true][(3 : Nat) - 1]? = some true ∧
      ∀ i, i < 3 - 1 → [false, false, true][i]? = some false) :=
  ⟨connect_backoff_sequence.1 2,
    connect_backoff_sequence.2 none [false, false, true] [1, 2] 3 (by decide)⟩

theorem connectLoop_no_error_no_cancel :
    ∀ (outcomes : List Bool) (b a : Nat),
    connectLoop b a outcomes ≠ .cancelled ∧
      ∀ e, connectLoop b a outcomes ≠ .failed e := by
  intro outcomes
  induction outcomes with
  | nil =>
      intro b a
      exact ⟨by simp [connectLoop], fun e => by simp [connectLoop]⟩
  | cons o rest ih =>
      intro b a
      cases o with
      | true =>
          rw [connectLoop_cons_true]
          exact ⟨by simp, fun e => by simp⟩
      | false =>
          rw [connectLoop_cons_false]
          obtain ⟨hc, hf⟩ := ih (min (b * 2) 30) (a + 1)
          cases heq : connectLoop (min (b * 2) 30) (a + 1) rest with
          | connected s' k' => exact ⟨by simp, fun e => by simp⟩
          | connecting s' => exact ⟨by simp, fun e => by simp⟩
          | cancelled => exact absurd heq hc
          | failed e' => exact absurd heq (hf e')

/-- C6 counterexample: the cancellation signal is raised during the retry
sleep of attempt 1 (`cancelRaisedAt = some 1`), yet once the second dial
succeeds the call returns a connection — not a cancellation outcome.  The
claim that a mid-retry cancellation makes the call "return a cancellation
outcome instead of a connection" is therefore false of the code: `main`
(main.go:133) calls `connectWithRetry(cfg)` without passing the cancellation
context, and the retry loop consults nothing but the dial outcomes. -/
theorem connect_cancellation_counterexample :
    connectWithRetry (some 1) [false, true] = .connected [1] 2 ∧
    connectWithRetry (some 1) [false, true] ≠ .cancelled := by
  constructor
  · rfl
  · decide

/-- C6 as amended: the connect operation never returns an error to its
caller and retries internally until the first success; however cancellation
raised mid-retry is NOT observed — the result is independent of when (or
whether) the cancellation signal is raised, the loop never produces a
cancellation outcome, and on the first successful attempt it returns a
connection regardless of a pending cancellation. -/
theorem connect_never_errors_cancellation_unobserved
    (cancelRaisedAt : Option Nat) (outcomes : List Bool) :
    connectWithRetry cancelRaisedAt outcomes = connectWithRetry none outcomes ∧
    connectWithRetry cancelRaisedAt outcomes ≠ .cancelled ∧
    (∀ e, connectWithRetry cancelRaisedAt outcomes ≠ .failed e) ∧
    (∀ n : Nat, outcomes = List.replicate n false ++ [true] →
      ∃ sleeps, connectWithRetry cancelRaisedAt outcomes
        = .connected sleeps (n + 1)) := by
  obtain ⟨hc, hf⟩ := connectLoop_no_error_no_cancel outcomes 1 1
  refine ⟨rfl, hc, hf, ?_⟩
  intro n hout
  subst hout
  unfold connectWithRetry
  rw [connectLoop_replicate n 1 1 (by norm_num)]
  refine ⟨(List.range n).map (fun i => min (1 * 2 ^ i) 30), ?_⟩
  simp only [ConnectOutcome.connected.injEq]
  exact ⟨trivial, by omega⟩

/-- Witness for C6 as amended: with cancellation raised at attempt 2 and
three failures before the success, the call still returns a connection on
attempt 4. -/
theorem connect_never_errors_cancellation_unobserved_witness :
    ∃ sleeps, connectWithRetry (some 2) (List.replicate 3 false ++ [true])
      = .connected sleeps 4 :=
  (connect_never_errors_cancellation_unobserved (some 2)
      (List.replicate 3 false ++ [true])).2.2.2 3 rfl

theorem runTicks_inv (cfg : Config) (P : WatchState → Prop)
    (hstep : ∀ s t, s.exited = false → P s → P (tickStep cfg s t)) :
    ∀ (ticks : List TickInput) (s : WatchState), P s → P (runTicks cfg s ticks) := by
  intro ticks
  induction ticks with
  | nil =>
      intro s hP
      exact hP
  | cons t rest ih =>
      intro s hP
      unfold runTicks
      cases hex : s.exited with
      | true => simpa using hP
      | false =>
          simp only [Bool.false_eq_true, if_false]
          exact ih _ (hstep s t hex hP)

theorem gatewayStep_live_cases (cfg : Config) (s : WatchState) (t : TickInput)
    (hlive : cfg.testMode = false) :
    ((gatewayStep cfg s t).gatewaySuccesses = s.gatewaySuccesses ∧
        (gatewayStep cfg s t).exited = s.exited) ∨
    ((gatewayStep cfg s t).gatewaySuccesses = s.gatewaySuccesses + 1 ∧
        (gatewayStep cfg s t).exited = true) := by
  unfold gatewayStep shutdownServer
  rw [hlive]
  cases t.stopOutcome with
  | error e => left; simp
  | ok u => right; simp

theorem gatewayStep_dry (cfg : Config) (s : WatchState) (t : TickInput)
    (hdry : cfg.testMode = true) :
    gatewayStep cfg s t =
      { s with gatewayInvocations := s.gatewayInvocations + 1
               gatewaySuccesses := s.gatewaySuccesses + 1 } := by
  unfold gatewayStep shutdownServer
  rw [hdry]
  simp

/-- C3 counterexample: in a dry-run execution with the thresholds the
repository's own system test sets to zero, the predicate is true on the
first tick and the Terminal Action Gateway invocation on that tick succeeds
(one success after one tick) — yet on the next tick of the same process run
the gateway is invoked, and succeeds, again: two successful invocations,
refuting "at most one successful invocation" for dry-run executions. -/
theorem terminal_action_reinvoked_in_dry_run :
    cfgDry.testMode = true ∧
    (runTicks cfgDry (initWatchState 0) [tickEmptyAt nsPerMin]).gatewaySuccesses = 1 ∧
    (runTicks cfgDry (initWatchState 0)
        [tickEmptyAt nsPerMin, tickEmptyAt (2 * nsPerMin)]).gatewayInvocations = 2 ∧
    ¬ ((runTicks cfgDry (initWatchState 0)
        [tickEmptyAt nsPerMin, tickEmptyAt (2 * nsPerMin)]).gatewaySuccesses ≤ 1) := by
  decide

/-- C3 as amended: in every LIVE (non-dry-run) execution, once the shutdown
predicate has become true on some tick and the Terminal Action Gateway
invocation on that tick succeeds, the gateway is never invoked again in the
same process run: the run has at most one successful invocation, a
successful invocation ends the process (`os.Exit(0)`), and the exited state
is irreversible.  (In dry-run mode the loop deliberately keeps running and
the gateway fires again on later qualifying ticks — see the
counterexample.) -/
theorem live_mode_at_most_one_successful_shutdown (cfg : Config) (t0 : Nat)
    (ticks : List TickInput) (hlive : cfg.testMode = false) :
    (runTicks cfg (initWatchState t0) ticks).gatewaySuccesses ≤ 1 ∧
    ((runTicks cfg (initWatchState t0) ticks).gatewaySuccesses = 1 →
      (runTicks cfg (initWatchState t0) ticks).exited = true) ∧
    (∀ (s : WatchState) (rest : List TickInput), s.exited = true →
      runTicks cfg s rest = s) := by
  have hinv := runTicks_inv cfg
    (fun s => (s.exited = false → s.gatewaySuccesses = 0) ∧ s.gatewaySuccesses ≤ 1)
    ?_ ticks (initWatchState t0) (by simp [initWatchState])
  · refine ⟨hinv.2, ?_, ?_⟩
    · intro hone
      cases hex : (runTicks cfg (initWatchState t0) ticks).exited with
      | true => rfl
      | false =>
          have := hinv.1 hex
          omega
    · intro s rest hex
      cases rest with
      | nil => rfl
      | cons t ts => simp [runTicks, hex]
  · intro s t hex hP
    cases hpoll : t.poll with
    | error e =>
        rw [tickStep_poll_error cfg s t e hpoll]
        exact hP
    | ok players =>
        rw [tickStep_poll_ok cfg s t players hpoll]
        obtain ⟨-, -, -, hsucc1, -, hex1⟩ := tickClock_fields s t players
        have hP1 : ((tickClock s t players).exited = false →
            (tickClock s t players).gatewaySuccesses = 0) ∧
            (tickClock s t players).gatewaySuccesses ≤ 1 := by
          rw [hsucc1, hex1]
          exact hP
        split
        · rcases gatewayStep_live_cases cfg (tickClock s t players) t hlive with
            ⟨hs, he⟩ | ⟨hs, he⟩
          · rw [hs, he]
            exact hP1
          · rw [hs, he]
            have h0 : (tickClock s t players).gatewaySuccesses = 0 :=
              hP1.1 (by rw [hex1]; exact hex)
            constructor
            · intro h
              simp at h
            · omega
        · exact hP1

/-- Witness for C3 as amended: one live tick past both thresholds produces
exactly one successful gateway invocation and the process exits. -/
theorem live_mode_at_most_one_successful_shutdown_witness :
    (runTicks cfgLive (initWatchState 0)
        [tickEmptyAt (31 * nsPerMin)]).gatewaySuccesses ≤ 1 ∧
    (runTicks cfgLive (initWatchState 0)
        [tickEmptyAt (31 * nsPerMin)]).exited = true :=
  ⟨(live_mode_at_most_one_successful_shutdown cfgLive 0
      [tickEmptyAt (31 * nsPerMin)] (by decide)).1,
    (live_mode_at_most_one_successful_shutdown cfgLive 0
      [tickEmptyAt (31 * nsPerMin)] (by decide)).2.1 (by decide)⟩

/-- C7: in dry-run (test) mode the polling loop never terminates the
process (`exited` never changes, so from the initial state it stays false
and every scripted tick is processed) and never performs the destructive
action (no `minecraft:server/stop` command is ever sent); the dry-run
Terminal Action Gateway only records the action and returns success
unconditionally, so the number of gateway invocations and the number of
gateway successes grow by the same amount — this holds for arbitrarily many
ticks after the predicate becomes true. -/
theorem dry_run_never_exits_or_destroys (cfg : Config) (s : WatchState)
    (ticks : List TickInput) (hdry : cfg.testMode = true) :
    (runTicks cfg s ticks).exited = s.exited ∧
    (runTicks cfg s ticks).stopCommandsSent = s.stopCommandsSent ∧
    (∃ k, (runTicks cfg s ticks).gatewayInvocations = s.gatewayInvocations + k ∧
      (runTicks cfg s ticks).gatewaySuccesses = s.gatewaySuccesses + k) := by
  refine runTicks_inv cfg
    (fun s' => s'.exited = s.exited ∧ s'.stopCommandsSent = s.stopCommandsSent ∧
      ∃ k, s'.gatewayInvocations = s.gatewayInvocations + k ∧
        s'.gatewaySuccesses = s.gatewaySuccesses + k)
    ?_ ticks s ⟨rfl, rfl, 0, rfl, rfl⟩
  intro s' t _ hP
  cases hpoll : t.poll with
  | error e =>
      rw [tickStep_poll_error cfg s' t e hpoll]
      exact hP
  | ok players =>
      rw [tickStep_poll_ok cfg s' t players hpoll]
      obtain ⟨-, -, hi1, hs1, hc1, he1⟩ := tickClock_fields s' t players
      have hP1 : (tickClock s' t players).exited = s.exited ∧
          (tickClock s' t players).stopCommandsSent = s.stopCommandsSent ∧
          ∃ k, (tickClock s' t players).gatewayInvocations
              = s.gatewayInvocations + k ∧
            (tickClock s' t players).gatewaySuccesses
              = s.gatewaySuccesses + k := by
        rw [hi1, hs1, hc1, he1]
        exact hP
      split
      · rw [gatewayStep_dry cfg (tickClock s' t players) t hdry]
        obtain ⟨he, hst, k, hi, hsu⟩ := hP1
        refine ⟨he, hst, k + 1, ?_, ?_⟩
        · show (tickClock s' t players).gatewayInvocations + 1
            = s.gatewayInvocations + (k + 1)
          omega
        · show (tickClock s' t players).gatewaySuccesses + 1
            = s.gatewaySuccesses + (k + 1)
          omega
      · exact hP1

/-- Witness for C7: two dry-run ticks past the (zero) thresholds leave the
process running, send no stop command, and record two successful gateway
invocations. -/
theorem dry_run_never_exits_or_destroys_witness :
    (runTicks cfgDry (initWatchState 0)
        [tickEmptyAt nsPerMin, tickEmptyAt (2 * nsPerMin)]).exited
      = (initWatchState 0).exited ∧
    (runTicks cfgDry (initWatchState 0)
        [tickEmptyAt nsPerMin, tickEmptyAt (2 * nsPerMin)]).stopCommandsSent
      = (initWatchState 0).stopCommandsSent ∧
    (∃ k, (runTicks cfgDry (initWatchState 0)
        [tickEmptyAt nsPerMin, tickEmptyAt (2 * nsPerMin)]).gatewayInvocations
      = (initWatchState 0).gatewayInvocations + k ∧
      (runTicks cfgDry (initWatchState 0)
        [tickEmptyAt nsPerMin, tickEmptyAt (2 * nsPerMin)]).gatewaySuccesses
      = (initWatchState 0).gatewaySuccesses + k) :=
  dry_run_never_exits_or_destroys cfgDry (initWatchState 0)
    [tickEmptyAt nsPerMin, tickEmptyAt (2 * nsPerMin)] (by decide)

theorem tickStep_lastPlayer_eq (cfg : Config) (s : WatchState) (t : TickInput)
    (players : List Player) (hpoll : t.poll = .ok players) :
    (tickStep cfg s t).lastPlayerTime
      = (if players.length > 0 then t.now else s.lastPlayerTime) := by
  rw [tickStep_poll_ok cfg s t players hpoll]
  split
  · rw [(gatewayStep_fields cfg _ t).2.2, (tickClock_fields s t players).2.1]
  · rw [(tickClock_fields s t players).2.1]

theorem tickStep_startTime_eq (cfg : Config) (s : WatchState) (t : TickInput) :
    (tickStep cfg s t).startTime = s.startTime := by
  cases hpoll : t.poll with
  | error e => rw [tickStep_poll_error cfg s t e hpoll]
  | ok players =>
      rw [tickStep_poll_ok cfg s t players hpoll]
      split
      · rw [(gatewayStep_fields cfg _ t).2.1, (tickClock_fields s t players).1]
      · exact (tickClock_fields s t players).1

theorem chain_le_of_le {a b : Nat} {l : List Nat} (hab : a ≤ b)
    (h : List.Chain (· ≤ ·) b l) : List.Chain (· ≤ ·) a l := by
  cases h with
  | nil => exact List.Chain.nil
  | cons hbc hrest => exact List.Chain.cons (le_trans hab hbc) hrest

theorem runTicks_lastPlayer_mono (cfg : Config) :
    ∀ (ticks : List TickInput) (s : WatchState),
    List.Chain (· ≤ ·) s.lastPlayerTime (ticks.map TickInput.now) →
    s.lastPlayerTime ≤ (runTicks cfg s ticks).lastPlayerTime := by
  intro ticks
  induction ticks with
  | nil =>
      intro s _
      exact le_refl _
  | cons t rest ih =>
      intro s hchain
      rw [List.map_cons] at hchain
      cases hchain with
      | cons h1 h2 =>
          unfold runTicks
          cases hex : s.exited with
          | true => simp
          | false =>
              simp only [Bool.false_eq_true, if_false]
              have hcases : (tickStep cfg s t).lastPlayerTime = s.lastPlayerTime ∨
                  (tickStep cfg s t).lastPlayerTime = t.now := by
                cases hpoll : t.poll with
                | error e =>
                    left
                    rw [tickStep_poll_error cfg s t e hpoll]
                | ok players =>
                    rw [tickStep_lastPlayer_eq cfg s t players hpoll]
                    by_cases hp : players.length > 0
                    · right
                      rw [if_pos hp]
                    · left
                      rw [if_neg hp]
              have hle_now : (tickStep cfg s t).lastPlayerTime ≤ t.now := by
                rcases hcases with h | h
                · rw [h]
                  exact h1
                · rw [h]
              have hge : s.lastPlayerTime ≤ (tickStep cfg s t).lastPlayerTime := by
                rcases hcases with h | h
                · rw [h]
                · rw [h]
                  exact h1
              exact le_trans hge (ih (tickStep cfg s t)
                (chain_le_of_le hle_now h2))

/-- C4: the last-nonempty-observation clock obeys exactly the spec's update
discipline: a tick whose poll fails leaves the whole state (both clocks
included) unchanged — a failed poll is never evidence of emptiness; a tick
whose poll returns the empty set leaves both clocks unchanged; a tick whose
poll returns a non-empty set sets the clock to the tick's instant; and over
any run whose tick instants are non-decreasing (as instants produced by
`time.Now()` are) the clock is monotonically non-decreasing. -/
theorem last_player_clock_rules (cfg : Config) :
    (∀ (s : WatchState) (t : TickInput) (e : GoError),
      t.poll = .error e → tickStep cfg s t = s) ∧
    (∀ (s : WatchState) (t : TickInput),
      t.poll = .ok [] →
        (tickStep cfg s t).lastPlayerTime = s.lastPlayerTime ∧
        (tickStep cfg s t).startTime = s.startTime) ∧
    (∀ (s : WatchState) (t : TickInput) (players : List Player),
      t.poll = .ok players → players ≠ [] →
        (tickStep cfg s t).lastPlayerTime = t.now) ∧
    (∀ (ticks : List TickInput) (s : WatchState),
      List.Chain (· ≤ ·) s.lastPlayerTime (ticks.map TickInput.now) →
        s.lastPlayerTime ≤ (runTicks cfg s ticks).lastPlayerTime) := by
  refine ⟨tickStep_poll_error cfg, ?_, ?_, runTicks_lastPlayer_mono cfg⟩
  · intro s t hpoll
    constructor
    · rw [tickStep_lastPlayer_eq cfg s t [] hpoll]
      simp
    · exact tickStep_startTime_eq cfg s t
  · intro s t players hpoll hne
    rw [tickStep_lastPlayer_eq cfg s t players hpoll,
      if_pos (List.length_pos.mpr hne)]

/-- Witness for C4: a fault tick leaves the initial state untouched; a
player tick at 50 time-units advances the clock there, and the clock is
monotone over the spec's fourth scenario (player seen at 50s, empty poll at
65s). -/
theorem last_player_clock_rules_witness :
    tickStep cfgLive (initWatchState 0) (tickFaultAt nsPerMin) = initWatchState 0 ∧
    (tickStep cfgLive (initWatchState 0) (tickPlayerAt 50)).lastPlayerTime = 50 ∧
    (initWatchState 0).lastPlayerTime
      ≤ (runTicks cfgLive (initWatchState 0)
          [tickPlayerAt 50, tickEmptyAt 65]).lastPlayerTime :=
  ⟨(last_player_clock_rules cfgLive).1 (initWatchState 0) (tickFaultAt nsPerMin)
      (.errorString "read failed") rfl,
    (last_player_clock_rules cfgLive).2.2.1 (initWatchState 0) (tickPlayerAt 50)
      [{ id := "853c", name := "jeb" }] rfl (by simp),
    (last_player_clock_rules cfgLive).2.2.2 [tickPlayerAt 50, tickEmptyAt 65]
      (initWatchState 0)
      (List.Chain.cons (by decide) (List.Chain.cons (by decide) List.Chain.nil))⟩

/-- C5 counterexample: the call issues request identifier 1, the next
message on the connection bears identifier 999 — matching no pending
request — and yet the call's result IS that message, not a discard: the
code (main.go:223-233) reads one message with `conn.ReadJSON` and never
compares `resp.ID` with the request's id, so the claim that a result is
taken only from a response bearing the same identifier, and that
unrecognized identifiers are discarded, is false. -/
theorem rpc_id_mismatch_counterexample :
    (sendJSONRPC 0 "minecraft:players" none
        { writeOutcome := none, readOutcome := .ok respWrongId }).2.1.id = 1 ∧
    (sendJSONRPC 0 "minecraft:players" none
        { writeOutcome := none, readOutcome := .ok respWrongId }).2.2
      = .ok respWrongId ∧
    respWrongId.id ≠ 1 := by
  refine ⟨rfl, rfl, by decide⟩

/-- C5 as amended: each call assigns the fresh identifier `requestID + 1`
and writes exactly one request bearing it, but the call's result is simply
the next response message read from the connection, whatever identifier that
message carries: no identifier matching is performed and no response is
discarded for bearing an unrecognized identifier. -/
theorem rpc_uses_next_response_regardless_of_id (requestID : Int)
    (method : String) (params : Option Json) (resp : JSONRPCResponse)
    (hne : resp.error = none) :
    (sendJSONRPC requestID method params
        { writeOutcome := none, readOutcome := .ok resp }).1 = requestID + 1 ∧
    (sendJSONRPC requestID method params
        { writeOutcome := none, readOutcome := .ok resp }).2.1.id
      = requestID + 1 ∧
    (sendJSONRPC requestID method params
        { writeOutcome := none, readOutcome := .ok resp }).2.2 = .ok resp := by
  obtain ⟨jr, i, r, er⟩ := resp
  replace hne : er = none := hne
  subst hne
  exact ⟨rfl, rfl, rfl⟩

/-- Witness for C5 as amended, at a response whose identifier (41) differs
from the issued request identifier (8). -/
theorem rpc_uses_next_response_regardless_of_id_witness :
    (sendJSONRPC 7 "minecraft:players" none
        { writeOutcome := none, readOutcome := .ok respId41 }).1 = 8 ∧
    (sendJSONRPC 7 "minecraft:players" none
        { writeOutcome := none, readOutcome := .ok respId41 }).2.1.id = 8 ∧
    (sendJSONRPC 7 "minecraft:players" none
        { writeOutcome := none, readOutcome := .ok respId41 }).2.2
      = .ok respId41 :=
  rpc_uses_next_response_regardless_of_id 7 "minecraft:players" none respId41 rfl

/-- C8: an I/O failure while writing the request or while waiting for the
response surfaces as a "transport lost" fault built with `%w`
(`GoError.wrapError`), whose wrapped cause `errors.Unwrap` can recover
(`hasCause = true`); a well-formed error response — carrying a numeric code,
message, and optional diagnostic payload — surfaces as a protocol fault
built without `%w` (`GoError.errorString`, `hasCause = false`).  The two
fault classes are therefore distinguishable by the caller, and the protocol
fault's text carries the response's code, message and payload. -/
theorem rpc_fault_taxonomy (requestID : Int) (method : String)
    (params : Option Json) :
    (∀ (e : GoError) (ro : Except GoError JSONRPCResponse),
      (sendJSONRPC requestID method params
          { writeOutcome := some e, readOutcome := ro }).2.2
        = .error (.wrapError ("failed to send request: " ++ e.message) e) ∧
      (GoError.wrapError ("failed to send request: " ++ e.message) e).hasCause
        = true) ∧
    (∀ e : GoError,
      (sendJSONRPC requestID method params
          { writeOutcome := none, readOutcome := .error e }).2.2
        = .error (.wrapError ("failed to read response: " ++ e.message) e) ∧
      (GoError.wrapError ("failed to read response: " ++ e.message) e).hasCause
        = true) ∧
    (∀ (resp : JSONRPCResponse) (er : JSONRPCError), resp.error = some er →
      (sendJSONRPC requestID method params
          { writeOutcome := none, readOutcome := .ok resp }).2.2
        = .error (.errorString ("JSON-RPC error " ++ toString er.code ++ ": "
            ++ er.message ++ " (data: " ++ er.data ++ ")")) ∧
      (GoError.errorString ("JSON-RPC error " ++ toString er.code ++ ": "
            ++ er.message ++ " (data: " ++ er.data ++ ")")).hasCause = false) := by
  refine ⟨fun e ro => ⟨rfl, rfl⟩, fun e => ⟨rfl, rfl⟩, ?_⟩
  intro resp er hsome
  obtain ⟨jr, i, r, e⟩ := resp
  replace hsome : e = some er := hsome
  subst hsome
  exact ⟨rfl, rfl⟩

/-- Witness for C8 at a concrete protocol error response (`Method not
found`, code -32601). -/
theorem rpc_fault_taxonomy_witness :
    (sendJSONRPC 0 "minecraft:players" none
        { writeOutcome := none, readOutcome := .ok respProtocolError }).2.2
      = .error (.errorString ("JSON-RPC error " ++ toString (-32601 : Int) ++ ": "
          ++ "Method not found" ++ " (data: " ++ "" ++ ")")) ∧
    (GoError.errorString ("JSON-RPC error " ++ toString (-32601 : Int) ++ ": "
          ++ "Method not found" ++ " (data: " ++ "" ++ ")")).hasCause = false :=
  (rpc_fault_taxonomy 0 "minecraft:players" none).2.2 respProtocolError
    { code := -32601, message := "Method not found", data := "" } rfl

/-- C9 counterexample: an environment that provides the mandatory bearer
credential but sets `POLL_INTERVAL_SECONDS=0` is not fatal at startup, the
connection is established (one dial attempt), and then the process crashes:
`monitorPlayers` panics at `time.NewTicker` (main.go:269) because the
configured poll interval converts to a non-positive ticker duration.  This
refutes both halves of the claim: the process crashes with the credential
present, and that crash happens after a connection attempt. -/
theorem crash_with_credential_counterexample :
    envSecretZeroPoll "MINECRAFT_MGMT_SECRET" ≠ "" ∧
    (mainRun envSecretZeroPoll [true] 0 []).fatalConfigExit = false ∧
    (mainRun envSecretZeroPoll [true] 0 []).tickerPanicked = true ∧
    (mainRun envSecretZeroPoll [true] 0 []).connectAttempts = 1 := by
  decide

/-- C9 as amended: the startup fatal exit (`log.Fatalf`) fires exactly when
the mandatory bearer credential is missing, and then before any connection
attempt has been made.  There is, however, one further crash: when the
credential is present and the configured poll interval converts to a
non-positive `int64` ticker duration, `monitorPlayers` panics at
`time.NewTicker` — and this happens exactly after a connection has been
established.  Under every configuration that provides the credential and
whose poll interval converts to a positive duration, no code path in the
core crashes the process; the only other exit is the graceful `os.Exit(0)`
after a live shutdown, recorded separately in `WatchState.exited`. -/
theorem crash_classification (env : Env) (dialOutcomes : List Bool)
    (t0 : Nat) (ticks : List TickInput) :
    ((mainRun env dialOutcomes t0 ticks).fatalConfigExit = true ↔
      env "MINECRAFT_MGMT_SECRET" = "") ∧
    ((mainRun env dialOutcomes t0 ticks).fatalConfigExit = true →
      (mainRun env dialOutcomes t0 ticks).connectAttempts = 0) ∧
    ((mainRun env dialOutcomes t0 ticks).tickerPanicked = true ↔
      (env "MINECRAFT_MGMT_SECRET" ≠ "" ∧
        pollTickerPanics (getEnvInt env "POLL_INTERVAL_SECONDS" 30) = true ∧
        ∃ sleeps attempt,
          connectWithRetry none dialOutcomes = .connected sleeps attempt)) ∧
    ((env "MINECRAFT_MGMT_SECRET" ≠ "" ∧
        pollTickerPanics (getEnvInt env "POLL_INTERVAL_SECONDS" 30) = false) →
      (mainRun env dialOutcomes t0 ticks).fatalConfigExit = false ∧
      (mainRun env dialOutcomes t0 ticks).tickerPanicked = false) := by
  by_cases hs : env "MINECRAFT_MGMT_SECRET" = ""
  · simp [mainRun, loadConfig, hs]
  · simp only [mainRun, loadConfig]
    rw [if_neg hs]
    cases hconn : connectWithRetry none dialOutcomes with
    | connected sleeps attempt =>
        dsimp only
        by_cases hp : pollTickerPanics (getEnvInt env "POLL_INTERVAL_SECONDS" 30)
          = true
        · rw [if_pos hp]
          refine ⟨by simp [hs], by simp, ?_, ?_⟩
          · constructor
            · intro _
              exact ⟨hs, hp, sleeps, attempt, rfl⟩
            · intro _
              rfl
          · intro h
            rw [h.2] at hp
            exact Bool.noConfusion hp
        · rw [if_neg hp]
          refine ⟨by simp [hs], by simp, ?_, fun h => ⟨rfl, rfl⟩⟩
          constructor
          · intro h
            exact Bool.noConfusion h
          · rintro ⟨-, hp', -⟩
            exact absurd hp' hp
    | connecting sleeps =>
        dsimp only
        refine ⟨by simp [hs], by simp, ?_, fun h => ⟨rfl, rfl⟩⟩
        constructor
        · intro h
          exact Bool.noConfusion h
        · rintro ⟨-, -, s', a', h⟩
          exact ConnectOutcome.noConfusion h
    | cancelled =>
        dsimp only
        refine ⟨by simp [hs], by simp, ?_, fun h => ⟨rfl, rfl⟩⟩
        constructor
        · intro h
          exact Bool.noConfusion h
        · rintro ⟨-, -, s', a', h⟩
          exact ConnectOutcome.noConfusion h
    | failed e =>
        dsimp only
        refine ⟨by simp [hs], by simp, ?_, fun h => ⟨rfl, rfl⟩⟩
        constructor
        · intro h
          exact Bool.noConfusion h
        · rintro ⟨-, -, s', a', h⟩
          exact ConnectOutcome.noConfusion h

/-- Witness for C9 as amended: the empty environment is fatal with zero
connection attempts, while an environment providing only the secret (poll
interval at its default of 30 seconds) neither exits fatally nor panics. -/
theorem crash_classification_witness :
    (mainRun envEmpty [] 0 []).fatalConfigExit = true ∧
    (mainRun envEmpty [] 0 []).connectAttempts = 0 ∧
    (mainRun envWithSecret [true] 0 []).fatalConfigExit = false ∧
    (mainRun envWithSecret [true] 0 []).tickerPanicked = false :=
  ⟨(crash_classification envEmpty [] 0 []).1.mpr rfl,
    (crash_classification envEmpty [] 0 []).2.1
      ((crash_classification envEmpty [] 0 []).1.mpr rfl),
    ((crash_classification envWithSecret [true] 0 []).2.2.2
      ⟨by decide, by decide⟩).1,
    ((crash_classification envWithSecret [true] 0 []).2.2.2
      ⟨by decide, by decide⟩).2⟩

theorem decodePlayer_playerJson (p : Player) :
    decodePlayer (playerJson p) = .ok p := by
  obtain ⟨i, n⟩ := p
  rfl

theorem decodePlayerList_map (ps : List Player) :
    decodePlayerList (ps.map playerJson) = .ok ps := by
  induction ps with
  | nil => rfl
  | cons p rest ih =>
      rw [List.map_cons]
      show (match decodePlayer (playerJson p) with
        | .error e => .error e
        | .ok q =>
            match decodePlayerList (rest.map playerJson) with
            | .error e => .error e
            | .ok qs => .ok (q :: qs)) = Except.ok (p :: rest)
      rw [decodePlayer_playerJson p, ih]

/-- C10 counterexample: a successful response whose `result` is JSON `null`
— a shape that is not a bare array — makes `getPlayers` return the empty
player list with NO error, because `json.Unmarshal` of `null` into a slice
sets it to nil and reports success.  The claim that every non-array result
shape yields an error is therefore false at this input. -/
theorem players_null_result_counterexample :
    (getPlayers 0 { writeOutcome := none, readOutcome := .ok respNullResult }).2
      = .ok [] ∧
    Json.null.isArr = false :=
  ⟨rfl, rfl⟩

/-- C10 as amended: for a successful participant-enumeration response,
`getPlayers` returns the participant list when the `result` field is a bare
JSON array of id/name records, AND ALSO when it is JSON `null` (which
decodes as the empty list, Go's documented slice-unmarshal behaviour); for
every other shape of `result` — an object (including one wrapping the array,
such as the `players`-keyed object the repository's own protocol document
shows), a boolean, a number, a string, or an absent field — `getPlayers`
returns an error, and a tick whose poll fails leaves the monitor state,
Clock Pair included, unchanged. -/
theorem players_result_shape_rules :
    (∀ fields : List (String × Json), ∃ e,
      unmarshalPlayers (some (.obj fields)) = .error e) ∧
    unmarshalPlayers (some .null) = .ok [] ∧
    (∀ ps : List Player,
      unmarshalPlayers (some (.arr (ps.map playerJson))) = .ok ps) ∧
    (∀ b, ∃ e, unmarshalPlayers (some (.bool b)) = .error e) ∧
    (∀ n : Int, ∃ e, unmarshalPlayers (some (.num n)) = .error e) ∧
    (∀ s : String, ∃ e, unmarshalPlayers (some (.str s)) = .error e) ∧
    (∃ e, unmarshalPlayers none = .error e) ∧
    (∀ (requestID : Int) (resp : JSONRPCResponse) (ps : List Player),
      resp.error = none → unmarshalPlayers resp.result = .ok ps →
      (getPlayers requestID
          { writeOutcome := none, readOutcome := .ok resp }).2 = .ok ps) ∧
    (∀ (requestID : Int) (resp : JSONRPCResponse) (e : GoError),
      resp.error = none → unmarshalPlayers resp.result = .error e →
      (getPlayers requestID
          { writeOutcome := none, readOutcome := .ok resp }).2
        = .error (.wrapError ("failed to parse players result: " ++ e.message) e)) ∧
    (∀ (cfg : Config) (s : WatchState) (t : TickInput) (e : GoError),
      t.poll = .error e → tickStep cfg s t = s) := by
  refine ⟨fun fields => ⟨_, rfl⟩, rfl, ?_, fun b => ⟨_, rfl⟩, fun n => ⟨_, rfl⟩,
    fun s => ⟨_, rfl⟩, ⟨_, rfl⟩, ?_, ?_, fun cfg s t e h => tickStep_poll_error cfg s t e h⟩
  · intro ps
    show decodePlayerList (ps.map playerJson) = .ok ps
    exact decodePlayerList_map ps
  · intro requestID resp ps hne hdec
    obtain ⟨jr, i, r, er⟩ := resp
    replace hne : er = none := hne
    subst hne
    replace hdec : unmarshalPlayers r = .ok ps := hdec
    show (match unmarshalPlayers r with
      | .error e =>
          ((requestID + 1 : Int),
            Except.error (GoError.wrapError
              ("failed to parse players result: " ++ e.message) e))
      | .ok qs => ((requestID + 1 : Int), Except.ok qs)).2 = .ok ps
    rw [hdec]
  · intro requestID resp e hne hdec
    obtain ⟨jr, i, r, er⟩ := resp
    replace hne : er = none := hne
    subst hne
    replace hdec : unmarshalPlayers r = .error e := hdec
    show (match unmarshalPlayers r with
      | .error e' =>
          ((requestID + 1 : Int),
            Except.error (GoError.wrapError
              ("failed to parse players result: " ++ e'.message) e'))
      | .ok qs => ((requestID + 1 : Int), Except.ok qs)).2 = _
    rw [hdec]

/-- Witness for C10 as amended: a bare empty-array result decodes to the
empty list through `getPlayers`, and a fault tick leaves the initial state
unchanged. -/
theorem players_result_shape_rules_witness :
    (getPlayers 5 { writeOutcome := none, readOutcome := .ok respId41 }).2
      = .ok [] ∧
    tickStep cfgLive (initWatchState 7) (tickFaultAt 9) = initWatchState 7 :=
  ⟨players_result_shape_rules.2.2.2.2.2.2.2.1 5 respId41 [] rfl rfl,
    players_result_shape_rules.2.2.2.2.2.2.2.2.2 cfgLive (initWatchState 7)
      (tickFaultAt 9) (.errorString "read failed") rfl⟩
